import Mathlib

/-!
Verification development for the orchestration core of the `arch_dz`
repository (scenario state machine, transactional outbox, Kafka client,
runner pool, dispatch and recovery loops).

The Python source is shallowly embedded: every database operation that the
source wraps in its own `async with db.get_session()` block (ending in
`session.commit()`) is modelled as one atomic function from `Store` to
`Store`; composite orchestrator operations compose these committed
transactions in source order.  External inputs (generated uuids, Kafka
send outcomes, process liveness as observed by `poll()`) are passed in as
explicit parameters.
-/

namespace ArchDz

/-- Scenario statuses, from `app/db/models.py` (`class ScenarioStatus`). -/
inductive ScenarioStatus where
  | init_startup
  | init_startup_processing
  | active
  | init_shutdown
  | in_shutdown_processing
  | inactive
deriving DecidableEq, Repr

/-- JSON-like values used for the `event_data` payloads built by the
orchestrator (`dict` literals with string keys holding ints, strings,
or nested dicts). -/
inductive Val where
  | nat : Nat → Val
  | str : String → Val
  | obj : List (String × Val) → Val

/-- A `Scenario` row (`app/db/models.py`): `id`, `status`; the `predict`
payload and the timestamp columns are irrelevant to the claims and omitted
from the row model. -/
structure Scenario where
  id : Nat
  status : ScenarioStatus
deriving DecidableEq, Repr

/-- An `OutboxEvent` row (`app/db/models.py`). -/
structure OutboxEvent where
  id : Nat
  scenario_id : Nat
  event_type : String
  event_data : Val
  topic : String
  processed : Bool
  created_at : Nat
  processed_at : Option Nat

/-- The durable relational store: the `scenarios` and `outbox_events`
tables, the autoincrement counters for the two primary keys, and a
logical clock supplying the monotone `created_at` stamps (`func.now()`;
monotonicity of the store clock is the ordering assumption of spec §6). -/
structure Store where
  scenarios : List Scenario
  events : List OutboxEvent
  nextScenarioId : Nat
  nextEventId : Nat
  now : Nat

/-- The empty store (fresh database). -/
def Store.empty : Store :=
  { scenarios := [], events := [], nextScenarioId := 0, nextEventId := 0, now := 0 }

namespace ScenarioCRUD

/-- `ScenarioCRUD.create_scenario` (`app/db/crud.py`): one committed
transaction inserting a new `Scenario` row with the given status and an
autoincrement id; returns the new id. -/
def create_scenario (status : ScenarioStatus) (s : Store) : Store × Nat :=
  let sid := s.nextScenarioId
  ({ s with scenarios := s.scenarios ++ [{ id := sid, status := status }],
            nextScenarioId := sid + 1 }, sid)

/-- Row-level effect of the status `UPDATE ... WHERE id = scenario_id`:
rewrites the status of a matching row, leaves other rows unchanged. -/
def updateFun (scenario_id : Nat) (status : ScenarioStatus) (sc : Scenario) :
    Scenario :=
  if sc.id = scenario_id then { sc with status := status } else sc

/-- `ScenarioCRUD.update_status` (`app/db/crud.py`): one committed
transaction running `UPDATE scenarios SET status = ... WHERE id = ...`;
returns `rowcount > 0`, i.e. whether any row matched. -/
def update_status (scenario_id : Nat) (status : ScenarioStatus) (s : Store) :
    Store × Bool :=
  ({ s with scenarios := s.scenarios.map (updateFun scenario_id status) },
   s.scenarios.any (fun sc => sc.id == scenario_id))

/-- `ScenarioCRUD.get_scenario` (`app/db/crud.py`): `SELECT ... WHERE id = ...`,
`scalar_one_or_none`. -/
def get_scenario (scenario_id : Nat) (s : Store) : Option Scenario :=
  s.scenarios.find? (fun sc => sc.id == scenario_id)

/-- `ScenarioCRUD.get_status` (`app/db/crud.py`). -/
def get_status (scenario_id : Nat) (s : Store) : Option ScenarioStatus :=
  (get_scenario scenario_id s).map (fun sc => sc.status)

end ScenarioCRUD

namespace OutboxManager

/-- `OutboxManager.create_event` (`app/orchestrator/outbox.py`): one
committed transaction inserting one unprocessed `OutboxEvent` row stamped
with the store clock; returns the new event id. -/
def create_event (scenario_id : Nat) (event_type : String) (event_data : Val)
    (topic : String) (s : Store) : Store × Nat :=
  let eid := s.nextEventId
  let ev : OutboxEvent :=
    { id := eid, scenario_id := scenario_id, event_type := event_type,
      event_data := event_data, topic := topic, processed := false,
      created_at := s.now, processed_at := none }
  ({ s with events := s.events ++ [ev], nextEventId := eid + 1, now := s.now + 1 },
   eid)

/-- Insertion step for the `ORDER BY created_at` read: keeps the list
ordered by `created_at`. -/
def insertByTime (e : OutboxEvent) : List OutboxEvent → List OutboxEvent
  | [] => [e]
  | x :: xs =>
      if e.created_at ≤ x.created_at then e :: x :: xs else x :: insertByTime e xs

/-- Deterministic realisation of the SQL `ORDER BY created_at` clause:
insertion sort by `created_at` (any `created_at`-sorted permutation is an
admissible result of the query). -/
def sortByTime : List OutboxEvent → List OutboxEvent
  | [] => []
  | x :: xs => insertByTime x (sortByTime xs)

/-- `OutboxManager.get_unprocessed_events` (`app/orchestrator/outbox.py`):
`SELECT ... WHERE processed = false ORDER BY created_at LIMIT limit`; a
pure read, no row is modified. -/
def get_unprocessed_events (limit : Nat) (s : Store) : List OutboxEvent :=
  (sortByTime (s.events.filter (fun e => e.processed == false))).take limit

/-- Row-level effect of the `UPDATE outbox_events SET processed = true,
processed_at = ... WHERE id = event_id` statement: rewrites a matching
row, leaves other rows unchanged. -/
def markFun (event_id : Nat) (t : Option Nat) (e : OutboxEvent) : OutboxEvent :=
  if e.id = event_id then { e with processed := true, processed_at := t } else e

/-- `OutboxManager.mark_as_processed` (`app/orchestrator/outbox.py`): one
committed transaction running `UPDATE outbox_events SET processed = true,
processed_at = now() WHERE id = ...`; returns `rowcount > 0`, i.e. whether
any row matched (PostgreSQL counts a matched row even if `processed` was
already true). -/
def mark_as_processed (event_id : Nat) (s : Store) : Store × Bool :=
  ({ s with events := s.events.map (markFun event_id (some s.now)) },
   s.events.any (fun e => e.id == event_id))

end OutboxManager

/-- The processed flag currently stored for an event id (`none` when no
row has that id). -/
def eventFlag (s : Store) (event_id : Nat) : Option Bool :=
  (s.events.find? (fun e => e.id == event_id)).map (fun e => e.processed)

/-- One tracked runner record in the supervisor's in-memory registry
(`runner_info` dict in `app/orchestrator/runner_pool.py`): the generated
id, the `status` string, and the process handle, abstracted to the
liveness the next `process.poll()` call reports (`alive = true` means
`poll() is None`, i.e. still running). -/
structure Runner where
  runner_id : String
  status : String
  alive : Bool
deriving DecidableEq, Repr

namespace RunnerPool

/-- `self.runners[runner_id] = runner_info`: Python dict assignment keyed
by `runner_id` — replaces the entry when the key is present, otherwise
appends in insertion order. -/
def insertRunner (rs : List Runner) (r : Runner) : List Runner :=
  if rs.any (fun x => x.runner_id == r.runner_id) then
    rs.map (fun x => if x.runner_id = r.runner_id then r else x)
  else rs ++ [r]

/-- The pool state (`RunnerPool.__init__`): desired size and the
in-memory registry. -/
structure Pool where
  pool_size : Nat
  runners : List Runner

/-- `RunnerPool.create_runner` (`app/orchestrator/runner_pool.py`): spawns
one external worker process and registers it with status `"running"`.
The uuid-derived `runner_id` is supplied by the environment as `rid`; a
freshly spawned process is registered unconditionally and has not yet
been observed dead, hence `alive := true`. -/
def create_runner (rid : String) (p : Pool) : Pool × String :=
  let r : Runner := { runner_id := rid, status := "running", alive := true }
  ({ p with runners := insertRunner p.runners r }, rid)

/-- `RunnerPool.ensure_pool_size` (`app/orchestrator/runner_pool.py`):
first deletes every tracked runner whose `process.poll()` is not `None`
(process exited), then, if fewer than `pool_size` remain, calls
`create_runner` until the tracked count reaches `pool_size`.  `freshIds`
supplies the uuid-derived ids of the runners launched in this call. -/
def ensure_pool_size (freshIds : List String) (p : Pool) : Pool :=
  if (p.runners.filter (fun r => r.alive)).length < p.pool_size then
    (freshIds.take (p.pool_size - (p.runners.filter (fun r => r.alive)).length)).foldl
      (fun q rid => (create_runner rid q).1)
      { p with runners := p.runners.filter (fun r => r.alive) }
  else { p with runners := p.runners.filter (fun r => r.alive) }

end RunnerPool

namespace KafkaClient

/-- Outcome of awaiting `producer.send_and_wait` on a live producer
object: the send is acknowledged; or the client library raises a
`KafkaError` (this includes `KafkaTimeoutError`, raised when the
producer's bounded request timeout expires instead of the await hanging
forever); or some other exception is raised. -/
inductive SendOutcome where
  | ok
  | kafkaError
  | timeoutError
  | otherError
deriving DecidableEq, Repr

/-- The producer field of `KafkaClient`: `None` before `connect()`
succeeds or after `disconnect()`, otherwise a producer whose behaviour on
a given (topic, key, value) is the outcome the environment supplies. -/
def Producer := Option (String → String → Val → SendOutcome)

/-- `KafkaClient.send_message` (`app/orchestrator/kafka_client.py`): if
`self.producer` is `None`, logs and returns `False`; otherwise awaits
`send_and_wait` and returns `True` on success, `False` on `KafkaError`
(timeouts included) and on any other exception — a total function into
`Bool`, never propagating an exception to the caller. -/
def send_message (producer : Producer) (topic key : String) (value : Val) : Bool :=
  match producer with
  | none => false
  | some p =>
      match p topic key value with
      | .ok => true
      | .kafkaError => false
      | .timeoutError => false
      | .otherError => false

end KafkaClient

/-- The `.value` string of a `ScenarioStatus` member (`str, Enum` in
`app/db/models.py`). -/
def statusValue : ScenarioStatus → String
  | .init_startup => "init_startup"
  | .init_startup_processing => "init_startup_processing"
  | .active => "active"
  | .init_shutdown => "init_shutdown"
  | .in_shutdown_processing => "in_shutdown_processing"
  | .inactive => "inactive"

/-- An item of the in-process command queue `self._event_queue`
(`Orchestrator.__init__`). -/
structure QueueItem where
  type : String
  scenario_id : Nat
  status : ScenarioStatus

/-- The orchestrator-visible world: the durable store, the supervisor's
in-memory registry, and the in-process command queue. -/
structure World where
  store : Store
  pool : RunnerPool.Pool
  queue : List QueueItem

namespace Orchestrator

open ScenarioCRUD OutboxManager

/-- `Orchestrator.create_scenario` (`app/orchestrator/orchestrator.py`),
transaction 1 of 2: the durable state after `scenario_crud.create_scenario`
has committed and before `outbox_manager.create_event` runs — the state a
crash between the two `db.get_session()` blocks leaves behind. -/
def create_scenario_after_first_txn (status : Option ScenarioStatus)
    (w : World) : World :=
  let (s1, _sid) := create_scenario (status.getD .init_startup) w.store
  { w with store := s1 }

/-- `Orchestrator.create_scenario` (`app/orchestrator/orchestrator.py`),
run to completion: commit the `Scenario` insert, then in a second
committed transaction insert the `scenario_created` outbox event, then
put a command on the in-process queue. -/
def create_scenario (status : Option ScenarioStatus) (w : World) : World × Nat :=
  let st := status.getD .init_startup
  let (s1, sid) := ScenarioCRUD.create_scenario st w.store
  let (s2, _eid) := create_event sid "scenario_created"
      (Val.obj [("scenario_id", .nat sid), ("status", .str (statusValue st))])
      "scenarios" s1
  let item : QueueItem := { type := "scenario_created", scenario_id := sid, status := st }
  ({ w with store := s2, queue := w.queue ++ [item] }, sid)

/-- `Orchestrator.update_scenario_status` (`app/orchestrator/orchestrator.py`):
commit the status `UPDATE`; on `rowcount = 0` return `False` at once;
otherwise commit the `scenario_status_updated` outbox event in a second
transaction, enqueue a command, and return `True`. -/
def update_scenario_status (scenario_id : Nat) (new_status : ScenarioStatus)
    (w : World) : World × Bool :=
  let (s1, success) := update_status scenario_id new_status w.store
  if success then
    let (s2, _eid) := create_event scenario_id "scenario_status_updated"
        (Val.obj [("scenario_id", .nat scenario_id),
                  ("status", .str (statusValue new_status))])
        "scenarios" s1
    let item : QueueItem :=
      { type := "scenario_status_updated", scenario_id := scenario_id,
        status := new_status }
    ({ w with store := s2, queue := w.queue ++ [item] }, true)
  else ({ w with store := s1 }, false)

/-- The body of the `for event in events` loop in
`Orchestrator._process_outbox_events`: when `self.kafka_client.connected`
is false the event is skipped (`continue`); otherwise `send_message` is
attempted and `mark_as_processed` runs exactly when it returned `True`.
`pub` gives the publish outcome the broker yields for (topic, key, value). -/
def dispatchStep (connected : Bool) (pub : String → String → Val → Bool)
    (s : Store) (e : OutboxEvent) : Store :=
  if connected then
    if pub e.topic (toString e.scenario_id) e.event_data then
      (mark_as_processed e.id s).1
    else s
  else s

/-- `Orchestrator._process_outbox_events`
(`app/orchestrator/orchestrator.py`): poll up to 10 unprocessed events and
run the dispatch body on each in order. -/
def process_outbox_events (connected : Bool)
    (pub : String → String → Val → Bool) (s : Store) : Store :=
  (get_unprocessed_events 10 s).foldl (dispatchStep connected pub) s

/-- An inbound recovery message from the retry topic
(`{scenario_id, event_data, reason}`; `Orchestrator._handle_retry_message`
reads the fields with `.get`, defaulting `event_data` to `{}` and
`reason` to `"unknown"`). -/
structure RetryMessage where
  scenario_id : Nat
  event_data : Val
  reason : String

/-- Observable actions performed by the retry handler, in program order. -/
inductive Action where
  | drop_message
  | launch_runner (rid : String)
  | set_status (scenario_id : Nat) (st : ScenarioStatus)
  | sleep_ms (ms : Nat)
  | append_event (event_id : Nat)
deriving DecidableEq, Repr

/-- `Orchestrator._handle_retry_message`
(`app/orchestrator/orchestrator.py`): look the scenario up; if absent, log
and return (drop).  Otherwise launch one new runner via
`runner_pool.create_runner`, set the scenario status to `init_startup`,
sleep 0.1 s, set it to `init_startup_processing`, and insert one
`scenario_restarted` outbox event carrying the new runner id, the failure
reason and the original event payload.  `freshId` is the uuid-derived id
of the runner launched by this call; the second component records the
observable actions in execution order. -/
def handle_retry_message (msg : RetryMessage) (freshId : String)
    (w : World) : World × List Action :=
  match ScenarioCRUD.get_scenario msg.scenario_id w.store with
  | none => (w, [.drop_message])
  | some _ =>
      let (pool1, rid) := RunnerPool.create_runner freshId w.pool
      let (s1, _ok1) := update_status msg.scenario_id .init_startup w.store
      let (s2, _ok2) := update_status msg.scenario_id .init_startup_processing s1
      let payload : Val :=
        Val.obj [("scenario_id", .nat msg.scenario_id),
                 ("new_runner_id", .str rid),
                 ("reason", .str msg.reason),
                 ("original_event", msg.event_data)]
      let (s3, eid) := create_event msg.scenario_id "scenario_restarted"
          payload "scenarios" s2
      ({ w with store := s3, pool := pool1 },
       [.launch_runner rid,
        .set_status msg.scenario_id .init_startup,
        .sleep_ms 100,
        .set_status msg.scenario_id .init_startup_processing,
        .append_event eid])

/-- Observable steps of the consumer-creation phase of
`Orchestrator._retry_consumer_loop`. -/
inductive RetryStep where
  | attempt_create
  | sleep_sec (n : Nat)
  | exit_loop
deriving DecidableEq, Repr

/-- The `for attempt in range(max_retries)` loop of
`Orchestrator._retry_consumer_loop` (`app/orchestrator/orchestrator.py`),
running with attempt index `idx` and `remaining` attempts left:
`outcome i` tells whether `create_consumer` succeeds on attempt `i`.  On
success the loop breaks with the consumer (identified by its attempt
index); on failure it sleeps `retry_delay = 2` seconds unless this was
the last attempt, in which case it logs and returns (no consumer, no
exception). -/
def connectAttempts (outcome : Nat → Bool) : Nat → Nat → Option Nat × List RetryStep
  | _idx, 0 => (none, [])
  | idx, remaining + 1 =>
      if outcome idx then (some idx, [.attempt_create])
      else if remaining = 0 then (none, [.attempt_create, .exit_loop])
      else
        let (res, tr) := connectAttempts outcome (idx + 1) remaining
        (res, .attempt_create :: .sleep_sec 2 :: tr)

/-- The consumer-creation phase of `Orchestrator._retry_consumer_loop`
with the source's constants: `max_retries = 5`, starting at attempt 0. -/
def retry_consumer_connect (outcome : Nat → Bool) : Option Nat × List RetryStep :=
  connectAttempts outcome 0 5

end Orchestrator

/-- The `scenario_restarted` outbox event `_handle_retry_message` inserts:
id from the autoincrement counter, payload carrying the scenario id, the
new runner id, the failure reason, and the original event payload. -/
def expectedRestartEvent (msg : Orchestrator.RetryMessage) (freshId : String)
    (eid ca : Nat) : OutboxEvent :=
  { id := eid, scenario_id := msg.scenario_id,
    event_type := "scenario_restarted",
    event_data := Val.obj [("scenario_id", .nat msg.scenario_id),
                           ("new_runner_id", .str freshId),
                           ("reason", .str msg.reason),
                           ("original_event", msg.event_data)],
    topic := "scenarios", processed := false, created_at := ca,
    processed_at := none }

/-- An empty orchestrator world (fresh database, no runners, empty queue):
the concrete starting point used to exercise the claims on small inputs. -/
def emptyWorld : World :=
  { store := Store.empty, pool := { pool_size := 0, runners := [] }, queue := [] }

/-- A sample unprocessed outbox event used to exercise the outbox
operations on concrete inputs. -/
def sampleEvent (i scenario_id ca : Nat) (topic : String) : OutboxEvent :=
  { id := i, scenario_id := scenario_id, event_type := "scenario_created",
    event_data := Val.obj [("scenario_id", .nat scenario_id)], topic := topic,
    processed := false, created_at := ca, processed_at := none }

/-- A store holding one unprocessed event with id 5. -/
def sampleStoreOne : Store :=
  { scenarios := [], events := [sampleEvent 5 1 0 "scenarios"],
    nextScenarioId := 0, nextEventId := 6, now := 1 }

/-- A store holding two unprocessed events on different topics. -/
def sampleStoreTwo : Store :=
  { scenarios := [], events := [sampleEvent 0 1 0 "scenarios", sampleEvent 1 2 1 "other"],
    nextScenarioId := 0, nextEventId := 2, now := 2 }

/-- A publish outcome that succeeds only on the `scenarios` topic. -/
def samplePub : String → String → Val → Bool :=
  fun topic _ _ => topic == "scenarios"

/-- A world holding a single scenario with id 0. -/
def sampleScenarioWorld : World :=
  { store := { scenarios := [{ id := 0, status := .active }], events := [],
               nextScenarioId := 1, nextEventId := 0, now := 0 },
    pool := { pool_size := 1, runners := [] }, queue := [] }

/-- A sample recovery message addressed to scenario 0. -/
def sampleRetryMsg : Orchestrator.RetryMessage :=
  { scenario_id := 0, event_data := Val.obj [("frame", .nat 7)],
    reason := "processing_failed" }

/-- A sample recovery message addressed to a scenario id no row has. -/
def sampleRetryMsgMissing : Orchestrator.RetryMessage :=
  { scenario_id := 9, event_data := Val.obj [], reason := "processing_failed" }

/-- A pool of desired size 2 tracking one runner whose process exited. -/
def samplePoolDead : RunnerPool.Pool :=
  { pool_size := 2,
    runners := [{ runner_id := "r0", status := "running", alive := false }] }

/-- A pool of desired size 1 tracking two live runners (extras launched by
the recovery path). -/
def samplePoolExtra : RunnerPool.Pool :=
  { pool_size := 1,
    runners := [{ runner_id := "ra", status := "running", alive := true },
                { runner_id := "rb", status := "running", alive := true }] }

section SortLemmas

open OutboxManager

lemma mem_insertByTime (a e : OutboxEvent) (l : List OutboxEvent) :
    a ∈ insertByTime e l ↔ a = e ∨ a ∈ l := by
  induction l with
  | nil => simp [insertByTime]
  | cons x xs ih =>
      by_cases h : e.created_at ≤ x.created_at
      · simp [insertByTime, h]
      · simp [insertByTime, h, ih]
        tauto

lemma mem_sortByTime (a : OutboxEvent) (l : List OutboxEvent) :
    a ∈ sortByTime l ↔ a ∈ l := by
  induction l with
  | nil => simp [sortByTime]
  | cons x xs ih => simp [sortByTime, mem_insertByTime, ih]

lemma insertByTime_perm (e : OutboxEvent) (l : List OutboxEvent) :
    List.Perm (insertByTime e l) (e :: l) := by
  induction l with
  | nil => simp [insertByTime]
  | cons x xs ih =>
      by_cases h : e.created_at ≤ x.created_at
      · simp [insertByTime, h]
      · simp only [insertByTime, h, if_false]
        exact (ih.cons x).trans (List.Perm.swap e x xs)

lemma sortByTime_perm (l : List OutboxEvent) : List.Perm (sortByTime l) l := by
  induction l with
  | nil => simp [sortByTime]
  | cons x xs ih => exact (insertByTime_perm x (sortByTime xs)).trans (ih.cons x)

lemma pairwise_insertByTime (e : OutboxEvent) (l : List OutboxEvent)
    (h : l.Pairwise (fun a b => a.created_at ≤ b.created_at)) :
    (insertByTime e l).Pairwise (fun a b => a.created_at ≤ b.created_at) := by
  induction l with
  | nil => simp [insertByTime]
  | cons x xs ih =>
      rcases List.pairwise_cons.mp h with ⟨hx, hxs⟩
      by_cases hle : e.created_at ≤ x.created_at
      · rw [insertByTime, if_pos hle]
        refine List.pairwise_cons.mpr ⟨?_, h⟩
        intro b hb
        rcases List.mem_cons.mp hb with rfl | hb
        · exact hle
        · exact le_trans hle (hx b hb)
      · rw [insertByTime, if_neg hle]
        refine List.pairwise_cons.mpr ⟨?_, ih hxs⟩
        intro b hb
        rcases (mem_insertByTime b e xs).mp hb with rfl | hb
        · exact Nat.le_of_not_le hle
        · exact hx b hb

lemma pairwise_sortByTime (l : List OutboxEvent) :
    (sortByTime l).Pairwise (fun a b => a.created_at ≤ b.created_at) := by
  induction l with
  | nil => simp [sortByTime]
  | cons x xs ih => exact pairwise_insertByTime x (sortByTime xs) ih

end SortLemmas

section StoreLemmas

open OutboxManager ScenarioCRUD

lemma markFun_id (event_id : Nat) (t : Option Nat) (e : OutboxEvent) :
    (markFun event_id t e).id = e.id := by
  by_cases h : e.id = event_id <;> simp [markFun, h]

lemma markFun_comp_key (event_id j : Nat) (t : Option Nat) :
    ((fun e : OutboxEvent => e.id == j) ∘ markFun event_id t)
      = (fun e : OutboxEvent => e.id == j) := by
  funext e
  simp [Function.comp, markFun_id]

lemma mark_preserves_ids (event_id : Nat) (s : Store) :
    (mark_as_processed event_id s).1.events.map (fun e => e.id)
      = s.events.map (fun e => e.id) := by
  simp only [mark_as_processed, List.map_map]
  apply List.map_congr_left
  intro e _
  exact markFun_id event_id (some s.now) e

lemma eventFlag_mark_self (event_id : Nat) (s : Store)
    (h : s.events.any (fun e => e.id == event_id) = true) :
    eventFlag (mark_as_processed event_id s).1 event_id = some true := by
  simp only [eventFlag, mark_as_processed, List.find?_map, markFun_comp_key]
  rcases List.any_eq_true.mp h with ⟨e, he, hpe⟩
  have hsome : (s.events.find? (fun e => e.id == event_id)).isSome := by
    rw [List.find?_isSome]
    exact ⟨e, he, hpe⟩
  rcases Option.isSome_iff_exists.mp hsome with ⟨a, ha⟩
  have hpa : a.id = event_id := by simpa using List.find?_some ha
  rw [ha]
  simp only [Option.map_some']
  simp [markFun, hpa]

lemma eventFlag_mark_other (event_id j : Nat) (s : Store) (hne : j ≠ event_id) :
    eventFlag (mark_as_processed event_id s).1 j = eventFlag s j := by
  simp only [eventFlag, mark_as_processed, List.find?_map, markFun_comp_key]
  cases hfind : s.events.find? (fun e => e.id == j) with
  | none => simp
  | some a =>
      have hja : a.id = j := by simpa using List.find?_some hfind
      have hane : ¬ a.id = event_id := by
        rw [hja]
        exact hne
      simp [markFun, hane]

lemma any_of_eventFlag (s : Store) (i : Nat) (b : Bool)
    (h : eventFlag s i = some b) :
    s.events.any (fun e => e.id == i) = true := by
  simp only [eventFlag, Option.map_eq_some'] at h
  rcases h with ⟨e, he, _⟩
  have hm : e ∈ s.events := List.mem_of_find?_eq_some he
  have hp := List.find?_some he
  exact List.any_eq_true.mpr ⟨e, hm, hp⟩

lemma find_of_nodup_mem (l : List OutboxEvent) (e : OutboxEvent)
    (hnd : (l.map (fun x => x.id)).Nodup) (he : e ∈ l) :
    l.find? (fun x => x.id == e.id) = some e := by
  induction l with
  | nil => simp at he
  | cons x xs ih =>
      rcases List.mem_cons.mp he with rfl | he'
      · simp [List.find?_cons]
      · have hx : x.id ≠ e.id := by
          intro hcontra
          have : x.id ∈ xs.map (fun y => y.id) :=
            hcontra ▸ List.mem_map.mpr ⟨e, he', rfl⟩
          exact (List.nodup_cons.mp (by simpa using hnd)).1 this
        have hnd' : (xs.map (fun y => y.id)).Nodup :=
          (List.nodup_cons.mp (by simpa using hnd)).2
        simp [List.find?_cons, hx, ih hnd' he']

lemma update_status_preserves_rest (scenario_id : Nat) (st : ScenarioStatus)
    (s : Store) :
    (update_status scenario_id st s).1.events = s.events ∧
    (update_status scenario_id st s).1.nextEventId = s.nextEventId ∧
    (update_status scenario_id st s).1.now = s.now := by
  simp [update_status]

lemma updateFun_id (scenario_id : Nat) (st : ScenarioStatus) (sc : Scenario) :
    (updateFun scenario_id st sc).id = sc.id := by
  by_cases h : sc.id = scenario_id <;> simp [updateFun, h]

lemma updateFun_comp_key (scenario_id j : Nat) (st : ScenarioStatus) :
    ((fun sc : Scenario => sc.id == j) ∘ updateFun scenario_id st)
      = (fun sc : Scenario => sc.id == j) := by
  funext sc
  simp [Function.comp, updateFun_id]

lemma scenario_ids_update (scenario_id : Nat) (st : ScenarioStatus) (s : Store) :
    (update_status scenario_id st s).1.scenarios.map (fun sc => sc.id)
      = s.scenarios.map (fun sc => sc.id) := by
  simp only [update_status, List.map_map]
  apply List.map_congr_left
  intro sc _
  exact updateFun_id scenario_id st sc

lemma get_status_update_self (scenario_id : Nat) (st : ScenarioStatus) (s : Store)
    (h : scenario_id ∈ s.scenarios.map (fun sc => sc.id)) :
    get_status scenario_id (update_status scenario_id st s).1 = some st := by
  simp only [get_status, get_scenario, update_status, List.find?_map,
    updateFun_comp_key]
  rcases List.mem_map.mp h with ⟨sc, hmem, hid⟩
  have hsome : (s.scenarios.find? (fun x => x.id == scenario_id)).isSome := by
    rw [List.find?_isSome]
    exact ⟨sc, hmem, by simpa using hid⟩
  rcases Option.isSome_iff_exists.mp hsome with ⟨a, ha⟩
  have hpa : a.id = scenario_id := by simpa using List.find?_some ha
  rw [ha]
  simp [updateFun, hpa]

lemma map_id_of_fixed {α : Type} (l : List α) (f : α → α)
    (h : ∀ x ∈ l, f x = x) : l.map f = l := by
  induction l with
  | nil => rfl
  | cons x xs ih =>
      simp only [List.map_cons, h x (List.mem_cons_self x xs)]
      rw [ih (fun y hy => h y (List.mem_cons_of_mem x hy))]

lemma any_key (l : List OutboxEvent) (i : Nat) :
    (l.map (fun e => e.id)).any (fun x => x == i)
      = l.any (fun e => e.id == i) := by
  induction l with
  | nil => rfl
  | cons x xs ih => simp only [List.map_cons, List.any_cons, ih]

end StoreLemmas

section DispatchLemmas

open OutboxManager Orchestrator

lemma dispatchStep_flag_other (c : Bool) (pub : String → String → Val → Bool)
    (s : Store) (e : OutboxEvent) (j : Nat) (hne : j ≠ e.id) :
    eventFlag (dispatchStep c pub s e) j = eventFlag s j := by
  unfold dispatchStep
  by_cases hc : c
  · by_cases hp : pub e.topic (toString e.scenario_id) e.event_data
    · simp only [hc, hp, if_true]
      exact eventFlag_mark_other e.id j s hne
    · simp [hc, hp]
  · simp [hc]

lemma foldl_flag_not_mem (c : Bool) (pub : String → String → Val → Bool)
    (L : List OutboxEvent) (s : Store) (j : Nat)
    (h : ∀ x ∈ L, x.id ≠ j) :
    eventFlag (L.foldl (dispatchStep c pub) s) j = eventFlag s j := by
  induction L generalizing s with
  | nil => rfl
  | cons x xs ih =>
      rw [List.foldl_cons, ih _ (fun y hy => h y (List.mem_cons_of_mem x hy))]
      exact dispatchStep_flag_other c pub s x j
        (fun hcon => h x (List.mem_cons_self x xs) hcon.symm)

lemma dispatchStep_flag_self (c : Bool) (pub : String → String → Val → Bool)
    (s : Store) (e : OutboxEvent) (hf : eventFlag s e.id = some false) :
    eventFlag (dispatchStep c pub s e) e.id
      = some (c && pub e.topic (toString e.scenario_id) e.event_data) := by
  unfold dispatchStep
  by_cases hc : c
  · by_cases hp : pub e.topic (toString e.scenario_id) e.event_data
    · simp only [hc, hp, if_true, Bool.true_and]
      exact eventFlag_mark_self e.id s (any_of_eventFlag s e.id false hf)
    · simpa [hc, hp] using hf
  · simpa [hc] using hf

lemma foldl_flag_main (c : Bool) (pub : String → String → Val → Bool)
    (L : List OutboxEvent) (s : Store) (e : OutboxEvent)
    (he : e ∈ L) (hnd : (L.map (fun x => x.id)).Nodup)
    (hf : eventFlag s e.id = some false) :
    eventFlag (L.foldl (dispatchStep c pub) s) e.id
      = some (c && pub e.topic (toString e.scenario_id) e.event_data) := by
  induction L generalizing s with
  | nil => simp at he
  | cons x xs ih =>
      have hnd' : (xs.map (fun y => y.id)).Nodup :=
        (List.nodup_cons.mp (by simpa using hnd)).2
      have hxnot : x.id ∉ xs.map (fun y => y.id) :=
        (List.nodup_cons.mp (by simpa using hnd)).1
      rcases List.mem_cons.mp he with rfl | he'
      · rw [List.foldl_cons]
        rw [foldl_flag_not_mem c pub xs _ e.id
          (fun y hy hcon => hxnot (hcon ▸ List.mem_map.mpr ⟨y, hy, rfl⟩))]
        exact dispatchStep_flag_self c pub s e hf
      · have hxe : x.id ≠ e.id := by
          intro hcon
          exact hxnot (hcon ▸ List.mem_map.mpr ⟨e, he', rfl⟩)
        rw [List.foldl_cons]
        exact ih (dispatchStep c pub s x) he' hnd'
          (by rw [dispatchStep_flag_other c pub s x e.id (Ne.symm hxe)]; exact hf)

lemma mem_get_unprocessed (limit : Nat) (s : Store) (e : OutboxEvent)
    (he : e ∈ get_unprocessed_events limit s) :
    e ∈ s.events ∧ e.processed = false := by
  have h1 : e ∈ sortByTime (s.events.filter (fun x => x.processed == false)) :=
    List.take_subset limit _ he
  have h2 : e ∈ s.events.filter (fun x => x.processed == false) :=
    (mem_sortByTime e _).mp h1
  rcases List.mem_filter.mp h2 with ⟨hmem, hproc⟩
  exact ⟨hmem, by simpa using hproc⟩

lemma nodup_get_unprocessed_ids (limit : Nat) (s : Store)
    (hnd : (s.events.map (fun e => e.id)).Nodup) :
    ((get_unprocessed_events limit s).map (fun e => e.id)).Nodup := by
  have hfilter : ((s.events.filter (fun x => x.processed == false)).map
      (fun e => e.id)).Nodup :=
    List.Sublist.nodup
      (List.Sublist.map (fun e => e.id) (List.filter_sublist s.events)) hnd
  have hsort : ((sortByTime (s.events.filter (fun x => x.processed == false))).map
      (fun e => e.id)).Nodup :=
    (List.Perm.nodup_iff
      (List.Perm.map (fun e => e.id) (sortByTime_perm _))).mpr hfilter
  unfold get_unprocessed_events
  exact List.Sublist.nodup
    (List.Sublist.map (fun e : OutboxEvent => e.id)
      (List.take_sublist limit
        (sortByTime (s.events.filter (fun x => x.processed == false))))) hsort

end DispatchLemmas

section PoolLemmas

open RunnerPool

lemma insertRunner_fresh (rs : List Runner) (r : Runner)
    (h : r.runner_id ∉ rs.map (fun x => x.runner_id)) :
    insertRunner rs r = rs ++ [r] := by
  have hany : rs.any (fun x => x.runner_id == r.runner_id) = false := by
    rw [List.any_eq_false]
    intro x hx
    simp only [beq_iff_eq]
    intro hcon
    exact h (hcon ▸ List.mem_map.mpr ⟨x, hx, rfl⟩)
  simp [insertRunner, hany]

lemma foldl_create_runner (ids : List String) (p : Pool)
    (h : (p.runners.map (fun r => r.runner_id) ++ ids).Nodup) :
    (ids.foldl (fun q rid => (create_runner rid q).1) p).runners
      = p.runners ++ ids.map
          (fun rid => { runner_id := rid, status := "running", alive := true }) ∧
    (ids.foldl (fun q rid => (create_runner rid q).1) p).pool_size = p.pool_size := by
  induction ids generalizing p with
  | nil => simp
  | cons rid rest ih =>
      rcases List.nodup_append.mp h with ⟨hl, hr, hdisj⟩
      have hfresh : rid ∉ p.runners.map (fun r => r.runner_id) := by
        intro hcon
        exact hdisj hcon (List.mem_cons_self rid rest)
      rw [List.foldl_cons]
      have hstep : (create_runner rid p).1.runners
          = p.runners ++ [{ runner_id := rid, status := "running", alive := true }] := by
        simp only [create_runner]
        exact insertRunner_fresh p.runners _ hfresh
      have hnext : ((create_runner rid p).1.runners.map (fun r => r.runner_id)
          ++ rest).Nodup := by
        rw [hstep, List.map_append]
        simp only [List.map_cons, List.map_nil]
        rw [List.append_assoc, List.singleton_append]
        exact h
      rcases ih (create_runner rid p).1 hnext with ⟨hruns, hsize⟩
      constructor
      · rw [hruns, hstep, List.map_cons, List.append_assoc]
        rfl
      · rw [hsize]
        rfl

end PoolLemmas

section RetryLoopLemmas

open Orchestrator

lemma connectAttempts_count (outcome : Nat → Bool) (idx rem : Nat) :
    ((connectAttempts outcome idx rem).2.count RetryStep.attempt_create) ≤ rem := by
  induction rem generalizing idx with
  | zero => simp [connectAttempts]
  | succ r ih =>
      by_cases h : outcome idx
      · simp [connectAttempts, h, List.count_cons]
      · by_cases hr : r = 0
        · simp [connectAttempts, h, hr, List.count_cons]
        · have := ih (idx + 1)
          simp only [connectAttempts, h, if_false, hr, if_neg hr]
          simp [List.count_cons]
          omega

lemma connectAttempts_sleeps (outcome : Nat → Bool) (idx rem n : Nat)
    (h : RetryStep.sleep_sec n ∈ (connectAttempts outcome idx rem).2) : n = 2 := by
  induction rem generalizing idx with
  | zero => simp [connectAttempts] at h
  | succ r ih =>
      by_cases ho : outcome idx
      · simp [connectAttempts, ho] at h
      · by_cases hr : r = 0
        · simp [connectAttempts, ho, hr] at h
        · simp only [connectAttempts, ho, if_false, if_neg hr] at h
          rcases List.mem_cons.mp h with hcon | h'
          · exact absurd hcon (by simp)
          · rcases List.mem_cons.mp h' with hcon | h''
            · simpa using hcon
            · exact ih (idx + 1) h''

end RetryLoopLemmas

/-- C1: the claim states that every Scenario mutation and its OutboxEvent
are written in the same DB transaction, so a crash between the two writes
leaves neither applied.  In the source, `Orchestrator.create_scenario`
commits the Scenario insert in one `db.get_session()` block and the
outbox insert in a second, separate block: at the crash point between the
two commits (starting from an empty database), the Scenario row is
durable while the outbox is still empty — the state change exists without
its event.  The last conjunct shows the event appears only once the
second transaction also runs. -/
theorem create_scenario_crash_splits_transactions :
    (Orchestrator.create_scenario_after_first_txn none emptyWorld).store.scenarios.length = 1 ∧
    (Orchestrator.create_scenario_after_first_txn none emptyWorld).store.events = [] ∧
    ((Orchestrator.create_scenario none emptyWorld).1.store.events.map
        (fun e => (e.event_type, e.processed))) = [("scenario_created", false)] := by
  exact ⟨rfl, rfl, rfl⟩

/-- C4: `mark_as_processed` is idempotent — marking an existing event
twice returns success both times and leaves `processed = true`; marking
an id that matches no event returns failure. -/
theorem mark_as_processed_idempotent (s : Store) (event_id missing : Nat)
    (h : s.events.any (fun e => e.id == event_id) = true)
    (hm : ∀ e ∈ s.events, e.id ≠ missing) :
    (OutboxManager.mark_as_processed event_id s).2 = true ∧
    (OutboxManager.mark_as_processed event_id
        (OutboxManager.mark_as_processed event_id s).1).2 = true ∧
    eventFlag (OutboxManager.mark_as_processed event_id
        (OutboxManager.mark_as_processed event_id s).1).1 event_id = some true ∧
    (OutboxManager.mark_as_processed missing s).2 = false := by
  have h2 : (OutboxManager.mark_as_processed event_id s).1.events.any
      (fun e => e.id == event_id) = true := by
    rw [← any_key, mark_preserves_ids, any_key]
    exact h
  refine ⟨h, h2, eventFlag_mark_self event_id _ h2, ?_⟩
  exact List.any_eq_false.mpr (fun e he => by simpa using hm e he)

/-- C4 witness: a store with a single unprocessed event with id 5; 7
matches no event. -/
theorem mark_as_processed_idempotent_witness :
    (sampleStoreOne.events.any (fun e => e.id == 5) = true) ∧
    (∀ e ∈ sampleStoreOne.events, e.id ≠ 7) ∧
    eventFlag (OutboxManager.mark_as_processed 5
        (OutboxManager.mark_as_processed 5 sampleStoreOne).1).1 5 = some true ∧
    (OutboxManager.mark_as_processed 7 sampleStoreOne).2 = false := by
  have h := mark_as_processed_idempotent sampleStoreOne 5 7 (by decide) (by decide)
  exact ⟨by decide, by decide, h.2.2.1, h.2.2.2⟩

/-- C5: `get_unprocessed_events limit` returns only events whose stored
`processed` flag is false (each returned event is an element of the
unchanged store, so it is still unprocessed after the pure read), ordered
oldest-first by `created_at`, with at most `limit` elements. -/
theorem get_unprocessed_events_spec (limit : Nat) (s : Store) :
    (∀ e ∈ OutboxManager.get_unprocessed_events limit s,
        e ∈ s.events ∧ e.processed = false) ∧
    (OutboxManager.get_unprocessed_events limit s).Pairwise
      (fun a b => a.created_at ≤ b.created_at) ∧
    (OutboxManager.get_unprocessed_events limit s).length ≤ limit := by
  refine ⟨fun e he => mem_get_unprocessed limit s e he, ?_, ?_⟩
  · unfold OutboxManager.get_unprocessed_events
    exact List.Pairwise.sublist (List.take_sublist _ _) (pairwise_sortByTime _)
  · unfold OutboxManager.get_unprocessed_events
    exact List.length_take_le limit _

/-- C7: `send_message` never raises into the caller (it is a total
function into `Bool`): with a dead or uninitialized producer it returns
failure; a hang surfaces through the producer's bounded request timeout
as a timeout error and results in failure; and it succeeds exactly when
the send outcome is an acknowledgement. -/
theorem send_message_safe (topic key : String) (value : Val)
    (p : String → String → Val → KafkaClient.SendOutcome) :
    KafkaClient.send_message none topic key value = false ∧
    (p topic key value = .timeoutError →
        KafkaClient.send_message (some p) topic key value = false) ∧
    (KafkaClient.send_message (some p) topic key value = true ↔
        p topic key value = .ok) := by
  refine ⟨rfl, ?_, ?_⟩
  · intro h
    simp [KafkaClient.send_message, h]
  · cases hp : p topic key value <;> simp [KafkaClient.send_message, hp]

/-- C7 witness: a producer whose send times out yields failure, and a
`None` producer yields failure, on a concrete message. -/
theorem send_message_safe_witness :
    KafkaClient.send_message (some (fun _ _ _ => .timeoutError)) "scenarios" "1"
      (Val.obj []) = false ∧
    KafkaClient.send_message none "scenarios" "1" (Val.obj []) = false := by
  have h := send_message_safe "scenarios" "1" (Val.obj [])
    (fun _ _ _ => .timeoutError)
  exact ⟨h.2.1 rfl, h.1⟩

/-- C9: `update_scenario_status` called with an id matching no Scenario
returns `False` and has no other observable effect: the store (scenarios
and outbox alike) and the in-process command queue are exactly as
before. -/
theorem update_scenario_status_not_found (scenario_id : Nat)
    (st : ScenarioStatus) (w : World)
    (h : ∀ sc ∈ w.store.scenarios, sc.id ≠ scenario_id) :
    Orchestrator.update_scenario_status scenario_id st w = (w, false) := by
  have hany : w.store.scenarios.any (fun sc => sc.id == scenario_id) = false :=
    List.any_eq_false.mpr (fun sc hsc => by simpa using h sc hsc)
  have hmap : w.store.scenarios.map (ScenarioCRUD.updateFun scenario_id st)
      = w.store.scenarios :=
    map_id_of_fixed _ _
      (fun sc hsc => by simp [ScenarioCRUD.updateFun, h sc hsc])
  simp [Orchestrator.update_scenario_status, ScenarioCRUD.update_status, hany, hmap]

/-- C9 witness: updating scenario 1 in a world whose only scenario has
id 0 fails and changes nothing. -/
theorem update_scenario_status_not_found_witness :
    (∀ sc ∈ sampleScenarioWorld.store.scenarios, sc.id ≠ 1) ∧
    Orchestrator.update_scenario_status 1 .inactive sampleScenarioWorld
      = (sampleScenarioWorld, false) := by
  exact ⟨by decide,
    update_scenario_status_not_found 1 .inactive sampleScenarioWorld (by decide)⟩

/-- C3: in one dispatch iteration, every polled unprocessed event ends up
marked processed exactly when the broker client was connected and the
publish for it returned success; a skipped (not connected) or failed
publish leaves the stored flag false, so a later iteration re-polls the
event. -/
theorem process_outbox_events_marks_iff (connected : Bool)
    (pub : String → String → Val → Bool) (s : Store)
    (hnd : (s.events.map (fun e => e.id)).Nodup) :
    ∀ e ∈ OutboxManager.get_unprocessed_events 10 s,
      eventFlag (Orchestrator.process_outbox_events connected pub s) e.id
        = some (connected && pub e.topic (toString e.scenario_id) e.event_data) := by
  intro e he
  rcases mem_get_unprocessed 10 s e he with ⟨hmem, hproc⟩
  have hf : eventFlag s e.id = some false := by
    rw [eventFlag, find_of_nodup_mem s.events e hnd hmem]
    simp [hproc]
  unfold Orchestrator.process_outbox_events
  exact foldl_flag_main connected pub _ s e he
    (nodup_get_unprocessed_ids 10 s hnd) hf

/-- C3 witness: two unprocessed events; the publish succeeds on topic
`scenarios` and fails on topic `other`, so after the iteration the first
is processed and the second is not. -/
theorem process_outbox_events_marks_iff_witness :
    ((sampleStoreTwo.events.map (fun e => e.id)).Nodup) ∧
    (∀ e ∈ OutboxManager.get_unprocessed_events 10 sampleStoreTwo,
        eventFlag (Orchestrator.process_outbox_events true samplePub sampleStoreTwo) e.id
          = some (true && samplePub e.topic (toString e.scenario_id) e.event_data)) := by
  exact ⟨by decide,
    process_outbox_events_marks_iff true samplePub sampleStoreTwo (by decide)⟩

/-- C6: when the surviving (live) count is below the desired size and the
generated ids are fresh and sufficient, `ensure_pool_size` removes every
dead runner, keeps each survivor once, and launches new runners until the
tracked count equals the desired pool size; afterwards no dead entry is
tracked. -/
theorem ensure_pool_size_restores (freshIds : List String) (p : RunnerPool.Pool)
    (hnd : (p.runners.map (fun r => r.runner_id) ++ freshIds).Nodup)
    (hlow : (p.runners.filter (fun r => r.alive)).length < p.pool_size)
    (hsupply : p.pool_size - (p.runners.filter (fun r => r.alive)).length
        ≤ freshIds.length) :
    (RunnerPool.ensure_pool_size freshIds p).runners
      = p.runners.filter (fun r => r.alive)
        ++ (freshIds.take
              (p.pool_size - (p.runners.filter (fun r => r.alive)).length)).map
            (fun rid => { runner_id := rid, status := "running", alive := true }) ∧
    (RunnerPool.ensure_pool_size freshIds p).runners.length = p.pool_size ∧
    (∀ r ∈ (RunnerPool.ensure_pool_size freshIds p).runners, r.alive = true) := by
  have hsub : ((p.runners.filter (fun r => r.alive)).map (fun r => r.runner_id)
      ++ freshIds.take
          (p.pool_size - (p.runners.filter (fun r => r.alive)).length)).Nodup :=
    List.Sublist.nodup
      (List.Sublist.append
        (List.Sublist.map (fun r : Runner => r.runner_id)
          (List.filter_sublist p.runners))
        (List.take_sublist _ freshIds)) hnd
  have hfold := foldl_create_runner
    (freshIds.take (p.pool_size - (p.runners.filter (fun r => r.alive)).length))
    { p with runners := p.runners.filter (fun r => r.alive) } hsub
  have hres : (RunnerPool.ensure_pool_size freshIds p).runners
      = p.runners.filter (fun r => r.alive)
        ++ (freshIds.take
              (p.pool_size - (p.runners.filter (fun r => r.alive)).length)).map
            (fun rid => { runner_id := rid, status := "running", alive := true }) := by
    unfold RunnerPool.ensure_pool_size
    rw [if_pos hlow]
    exact hfold.1
  refine ⟨hres, ?_, ?_⟩
  · rw [hres, List.length_append, List.length_map, List.length_take]
    have := Nat.min_eq_left hsupply
    omega
  · intro r hr
    rw [hres] at hr
    rcases List.mem_append.mp hr with hr' | hr'
    · simpa using (List.mem_filter.mp hr').2
    · rcases List.mem_map.mp hr' with ⟨rid, _, rfl⟩
      rfl

/-- C6 witness: a pool of desired size 2 whose only tracked runner is
dead, with three fresh ids available, ends with exactly the two new live
runners. -/
theorem ensure_pool_size_restores_witness :
    ((samplePoolDead.runners.map (fun r => r.runner_id)
        ++ ["a", "b", "c"]).Nodup) ∧
    ((samplePoolDead.runners.filter (fun r => r.alive)).length
        < samplePoolDead.pool_size) ∧
    (RunnerPool.ensure_pool_size ["a", "b", "c"] samplePoolDead).runners.length
      = samplePoolDead.pool_size ∧
    (∀ r ∈ (RunnerPool.ensure_pool_size ["a", "b", "c"] samplePoolDead).runners,
        r.alive = true) := by
  have h := ensure_pool_size_restores ["a", "b", "c"] samplePoolDead
    (by decide) (by decide) (by decide)
  exact ⟨by decide, by decide, h.2.1, h.2.2⟩

/-- C10: `ensure_pool_size` never removes a runner whose process is
alive; when the live count already reaches the desired size it launches
nothing (the registry becomes exactly the live survivors); and in general
the tracked count afterwards is the maximum of the live count and the
desired pool size — the pool may exceed its size but is never shrunk. -/
theorem ensure_pool_size_never_shrinks (freshIds : List String)
    (p : RunnerPool.Pool)
    (hnd : (p.runners.map (fun r => r.runner_id) ++ freshIds).Nodup) :
    (∀ r ∈ p.runners, r.alive = true →
        r ∈ (RunnerPool.ensure_pool_size freshIds p).runners) ∧
    (p.pool_size ≤ (p.runners.filter (fun r => r.alive)).length →
        (RunnerPool.ensure_pool_size freshIds p).runners
          = p.runners.filter (fun r => r.alive)) ∧
    (p.pool_size - (p.runners.filter (fun r => r.alive)).length ≤ freshIds.length →
        (RunnerPool.ensure_pool_size freshIds p).runners.length
          = max (p.runners.filter (fun r => r.alive)).length p.pool_size) := by
  by_cases hlow : (p.runners.filter (fun r => r.alive)).length < p.pool_size
  · have hsub : ((p.runners.filter (fun r => r.alive)).map (fun r => r.runner_id)
        ++ freshIds.take
            (p.pool_size - (p.runners.filter (fun r => r.alive)).length)).Nodup :=
      List.Sublist.nodup
        (List.Sublist.append
          (List.Sublist.map (fun r : Runner => r.runner_id)
            (List.filter_sublist p.runners))
          (List.take_sublist _ freshIds)) hnd
    have hfold := foldl_create_runner
      (freshIds.take (p.pool_size - (p.runners.filter (fun r => r.alive)).length))
      { p with runners := p.runners.filter (fun r => r.alive) } hsub
    have hres : (RunnerPool.ensure_pool_size freshIds p).runners
        = p.runners.filter (fun r => r.alive)
          ++ (freshIds.take
                (p.pool_size - (p.runners.filter (fun r => r.alive)).length)).map
              (fun rid => { runner_id := rid, status := "running", alive := true }) := by
      unfold RunnerPool.ensure_pool_size
      rw [if_pos hlow]
      exact hfold.1
    refine ⟨?_, ?_, ?_⟩
    · intro r hr halive
      rw [hres]
      exact List.mem_append_left _ (List.mem_filter.mpr ⟨hr, by simp [halive]⟩)
    · intro hge
      exact absurd hge (Nat.not_le.mpr hlow)
    · intro hsupply
      have hmax : max (p.runners.filter (fun r => r.alive)).length p.pool_size
          = p.pool_size := Nat.max_eq_right (Nat.le_of_lt hlow)
      have hmin := Nat.min_eq_left hsupply
      rw [hres, List.length_append, List.length_map, List.length_take, hmax]
      omega
  · have hres : (RunnerPool.ensure_pool_size freshIds p).runners
        = p.runners.filter (fun r => r.alive) := by
      unfold RunnerPool.ensure_pool_size
      rw [if_neg hlow]
    refine ⟨?_, fun _ => hres, ?_⟩
    · intro r hr halive
      rw [hres]
      exact List.mem_filter.mpr ⟨hr, by simp [halive]⟩
    · intro _
      rw [hres]
      exact (Nat.max_eq_left (Nat.le_of_not_lt hlow)).symm

/-- C10 witness: a pool of desired size 1 tracking two live runners keeps
both (nothing launched, nothing removed): the count stays at
`max 2 1 = 2`. -/
theorem ensure_pool_size_never_shrinks_witness :
    ((samplePoolExtra.runners.map (fun r => r.runner_id)
        ++ ([] : List String)).Nodup) ∧
    (RunnerPool.ensure_pool_size [] samplePoolExtra).runners
      = samplePoolExtra.runners.filter (fun r => r.alive) ∧
    (RunnerPool.ensure_pool_size [] samplePoolExtra).runners.length
      = max (samplePoolExtra.runners.filter (fun r => r.alive)).length
          samplePoolExtra.pool_size := by
  have h := ensure_pool_size_never_shrinks [] samplePoolExtra (by decide)
  exact ⟨by decide, h.2.1 (by decide), h.2.2 (by decide)⟩

/-- C8: the retry-consumer creation loop attempts consumer creation at
most 5 times, every backoff between failed attempts is exactly 2 seconds,
and when all 5 attempts fail it exits with no consumer (returning, not
raising, and not retrying further). -/
theorem retry_consumer_connect_bounded (outcome : Nat → Bool) :
    ((Orchestrator.retry_consumer_connect outcome).2.count
        Orchestrator.RetryStep.attempt_create ≤ 5) ∧
    (∀ n, Orchestrator.RetryStep.sleep_sec n
        ∈ (Orchestrator.retry_consumer_connect outcome).2 → n = 2) ∧
    ((∀ i, i < 5 → outcome i = false) →
        Orchestrator.retry_consumer_connect outcome
          = (none, [.attempt_create, .sleep_sec 2, .attempt_create, .sleep_sec 2,
                    .attempt_create, .sleep_sec 2, .attempt_create, .sleep_sec 2,
                    .attempt_create, .exit_loop])) := by
  refine ⟨connectAttempts_count outcome 0 5,
    fun n hn => connectAttempts_sleeps outcome 0 5 n hn, ?_⟩
  intro h
  have h0 := h 0 (by omega)
  have h1 := h 1 (by omega)
  have h2 := h 2 (by omega)
  have h3 := h 3 (by omega)
  have h4 := h 4 (by omega)
  simp [Orchestrator.retry_consumer_connect, Orchestrator.connectAttempts,
    h0, h1, h2, h3, h4]

lemma get_status_create_event (scenario_id sid2 : Nat) (ty : String) (d : Val)
    (topic : String) (s : Store) :
    ScenarioCRUD.get_status scenario_id
        (OutboxManager.create_event sid2 ty d topic s).1
      = ScenarioCRUD.get_status scenario_id s := by
  simp [ScenarioCRUD.get_status, ScenarioCRUD.get_scenario,
    OutboxManager.create_event]

/-- C2: for an inbound recovery message, if no Scenario has the given id
the handler drops the message with no effect; otherwise it launches
exactly one new runner, performs the two status writes `init_startup`
then `init_startup_processing` in that order with a sleep between them
(the recorded action trace), and appends exactly one unprocessed
`scenario_restarted` outbox event whose payload carries the new runner
id, the failure reason and the original event payload; the scenario ends
in `init_startup_processing`. -/
theorem handle_retry_message_spec (msg : Orchestrator.RetryMessage)
    (freshId : String) (w : World)
    (hfresh : freshId ∉ w.pool.runners.map (fun r => r.runner_id)) :
    ((∀ sc ∈ w.store.scenarios, sc.id ≠ msg.scenario_id) →
        Orchestrator.handle_retry_message msg freshId w
          = (w, [Orchestrator.Action.drop_message])) ∧
    (msg.scenario_id ∈ w.store.scenarios.map (fun sc => sc.id) →
        (Orchestrator.handle_retry_message msg freshId w).2
          = [.launch_runner freshId,
             .set_status msg.scenario_id .init_startup,
             .sleep_ms 100,
             .set_status msg.scenario_id .init_startup_processing,
             .append_event w.store.nextEventId] ∧
        (Orchestrator.handle_retry_message msg freshId w).1.pool.runners
          = w.pool.runners
            ++ [{ runner_id := freshId, status := "running", alive := true }] ∧
        (Orchestrator.handle_retry_message msg freshId w).1.store.events
          = w.store.events
            ++ [expectedRestartEvent msg freshId w.store.nextEventId w.store.now] ∧
        ScenarioCRUD.get_status msg.scenario_id
            (Orchestrator.handle_retry_message msg freshId w).1.store
          = some .init_startup_processing) := by
  constructor
  · intro h
    have hg : ScenarioCRUD.get_scenario msg.scenario_id w.store = none := by
      unfold ScenarioCRUD.get_scenario
      exact List.find?_eq_none.mpr (fun sc hsc => by simpa using h sc hsc)
    simp [Orchestrator.handle_retry_message, hg]
  · intro hmem
    have hsome : (w.store.scenarios.find?
        (fun sc => sc.id == msg.scenario_id)).isSome := by
      rw [List.find?_isSome]
      rcases List.mem_map.mp hmem with ⟨sc, hsc, hid⟩
      exact ⟨sc, hsc, by simpa using hid⟩
    rcases Option.isSome_iff_exists.mp hsome with ⟨a, ha⟩
    have hg : ScenarioCRUD.get_scenario msg.scenario_id w.store = some a := ha
    have hins : RunnerPool.insertRunner w.pool.runners
        ⟨freshId, "running", true⟩ = w.pool.runners ++ [⟨freshId, "running", true⟩] :=
      insertRunner_fresh w.pool.runners _ hfresh
    refine ⟨?_, ?_, ?_, ?_⟩
    · simp [Orchestrator.handle_retry_message, hg, RunnerPool.create_runner,
        ScenarioCRUD.update_status, OutboxManager.create_event]
    · simp [Orchestrator.handle_retry_message, hg, RunnerPool.create_runner, hins]
    · simp [Orchestrator.handle_retry_message, hg, RunnerPool.create_runner,
        ScenarioCRUD.update_status, OutboxManager.create_event,
        expectedRestartEvent]
    · have hmem1 : msg.scenario_id ∈ (ScenarioCRUD.update_status msg.scenario_id
          ScenarioStatus.init_startup w.store).1.scenarios.map (fun sc => sc.id) := by
        rw [scenario_ids_update]
        exact hmem
      have hst := get_status_update_self msg.scenario_id
        ScenarioStatus.init_startup_processing
        (ScenarioCRUD.update_status msg.scenario_id ScenarioStatus.init_startup
          w.store).1 hmem1
      simp only [Orchestrator.handle_retry_message, hg, RunnerPool.create_runner]
      simpa [get_status_create_event] using hst

/-- C2 witness: on a world holding scenario 0, a recovery message for a
missing scenario 9 is dropped with no effect, and a recovery message for
scenario 0 launches one runner, performs the two-step reset in order, and
appends the `scenario_restarted` event with the expected payload. -/
theorem handle_retry_message_spec_witness :
    (Orchestrator.handle_retry_message sampleRetryMsgMissing "r1" sampleScenarioWorld
        = (sampleScenarioWorld, [Orchestrator.Action.drop_message])) ∧
    ((Orchestrator.handle_retry_message sampleRetryMsg "r1" sampleScenarioWorld).2
        = [.launch_runner "r1",
           .set_status 0 .init_startup,
           .sleep_ms 100,
           .set_status 0 .init_startup_processing,
           .append_event 0] ∧
      (Orchestrator.handle_retry_message sampleRetryMsg "r1"
          sampleScenarioWorld).1.pool.runners
        = [{ runner_id := "r1", status := "running", alive := true }] ∧
      (Orchestrator.handle_retry_message sampleRetryMsg "r1"
          sampleScenarioWorld).1.store.events
        = [expectedRestartEvent sampleRetryMsg "r1" 0 0] ∧
      ScenarioCRUD.get_status 0
          (Orchestrator.handle_retry_message sampleRetryMsg "r1"
            sampleScenarioWorld).1.store
        = some .init_startup_processing) := by
  have hdrop := (handle_retry_message_spec sampleRetryMsgMissing "r1"
    sampleScenarioWorld (by decide)).1 (by decide)
  have hrun := (handle_retry_message_spec sampleRetryMsg "r1"
    sampleScenarioWorld (by decide)).2 (by decide)
  exact ⟨hdrop, hrun.1, hrun.2.1, hrun.2.2.1, hrun.2.2.2⟩

/-- C8 witness: with consumer creation failing on every attempt, the loop
makes exactly 5 attempts with 2-second backoffs and exits without a
consumer. -/
theorem retry_consumer_connect_bounded_witness :
    (∀ i, i < 5 → (fun _ : Nat => false) i = false) ∧
    Orchestrator.retry_consumer_connect (fun _ => false)
      = (none, [.attempt_create, .sleep_sec 2, .attempt_create, .sleep_sec 2,
                .attempt_create, .sleep_sec 2, .attempt_create, .sleep_sec 2,
                .attempt_create, .exit_loop]) := by
  exact ⟨fun i _ => rfl,
    (retry_consumer_connect_bounded (fun _ => false)).2.2 (fun i _ => rfl)⟩

end ArchDz
